import Mathlib

/-!
Verification development for a KuCoin futures trading client
(`pccxl`): a shallow embedding of the order-validation, order-building
and response-handling code of
`src/pccxl/providers/kucoin/clients/perp.py`,
`src/pccxl/providers/kucoin/validations.py` and
`src/pccxl/common/utils.py`, with theorems checking the repository's
specification against it.

Python values that flow through the order dictionaries are embedded as
`PyVal` (None, bool, int, float, str, dict), with Python truthiness as
`PyVal.truthy`.  Python floats are embedded as exact rationals.
Dictionaries are insertion-ordered association lists.  Network I/O is
embedded as an explicit trace of issued `Request`s, with the exchange's
answers supplied by an `Env`; `flat_uuid` (a random uuid) is embedded
as a draw from an `Env.uuid` stream indexed by a counter.
-/

namespace Pccxl

/-- Embedded Python values as they appear in the order payloads and
JSON response bodies of the client. Floats are embedded as exact
rationals. -/
inductive PyVal where
  | none : PyVal
  | bool (b : Bool) : PyVal
  | int (n : Int) : PyVal
  | rat (q : ℚ) : PyVal
  | str (s : String) : PyVal
  | dict (d : List (String × PyVal)) : PyVal

/-- Python truthiness for the embedded values: `None`, `False`, `0`,
`0.0`, `""` and `{}` are falsy, everything else truthy. -/
def PyVal.truthy : PyVal → Bool
  | .none => false
  | .bool b => b
  | .int n => decide (n ≠ 0)
  | .rat q => decide (q ≠ 0)
  | .str s => decide (s ≠ "")
  | .dict d => !d.isEmpty

/-- Python `v == s` for a string literal `s`: true exactly when `v` is
that string (values of different types compare unequal in Python). -/
def PyVal.isStr (v : PyVal) (s : String) : Bool :=
  match v with
  | .str t => decide (t = s)
  | _ => false

theorem PyVal.isStr_iff (v : PyVal) (s : String) :
    v.isStr s = true ↔ v = PyVal.str s := by
  cases v <;> simp [PyVal.isStr]

theorem PyVal.str_injective {s t : String} (h : PyVal.str s = PyVal.str t) : s = t := by
  cases h; rfl

/-- Numeric reading of a value, for Python arithmetic and comparisons:
bools count as 0/1 as in Python; non-numeric values have none (their
use in arithmetic raises TypeError). -/
def PyVal.toRat? : PyVal → Option ℚ
  | .bool b => some (if b then 1 else 0)
  | .int n => some (n : ℚ)
  | .rat q => some q
  | _ => Option.none

/-- Python str() rendering, needed only for f-string interpolation of
path pieces; only the string case is exercised by the client. -/
def pyStr : PyVal → String
  | .str s => s
  | .none => "None"
  | .bool b => if b then "True" else "False"
  | .int n => toString n
  | .rat q => toString q
  | .dict _ => "{...}"

/-- Python str.upper() for the ASCII symbols the client handles,
character by character. -/
def pyUpper (s : String) : String := ⟨s.data.map Char.toUpper⟩

/-- Python str.lower() for the ASCII sides the client handles,
character by character. -/
def pyLower (s : String) : String := ⟨s.data.map Char.toLower⟩

/-- An insertion-ordered dictionary with string keys, as Python dicts
behave for the client's payloads. -/
abbrev AList (α : Type) := List (String × α)

/-- Dictionary lookup, `d.get(k)` / `d[k]` seen as an Option. -/
def aget {α : Type} : AList α → String → Option α
  | [], _ => Option.none
  | (k1, v) :: t, k => if k1 = k then some v else aget t k

/-- Dictionary update `d[k] = v`: replaces in place when the key is
present (keeping its position), appends otherwise, as Python dicts do. -/
def aset {α : Type} : AList α → String → α → AList α
  | [], k, v => [(k, v)]
  | (k1, v1) :: t, k, v => if k1 = k then (k, v) :: t else (k1, v1) :: aset t k v

/-- The key list of a dictionary, in insertion order. -/
def keysOf {α : Type} (d : AList α) : List String := d.map Prod.fst

theorem aget_aset_self {α : Type} (d : AList α) (k : String) (v : α) :
    aget (aset d k v) k = some v := by
  induction d with
  | nil => simp [aget, aset]
  | cons h t ih =>
    obtain ⟨k1, v1⟩ := h
    by_cases hk : k1 = k <;> simp [aget, aset, hk, ih]

theorem aget_aset_ne {α : Type} (d : AList α) {k k2 : String} (v : α) (h : k ≠ k2) :
    aget (aset d k v) k2 = aget d k2 := by
  induction d with
  | nil => simp [aget, aset, h]
  | cons hd t ih =>
    obtain ⟨k1, v1⟩ := hd
    by_cases hk : k1 = k
    · subst hk
      simp [aget, aset, h]
    · by_cases hk2 : k1 = k2 <;> simp [aget, aset, hk, hk2, ih, Ne.symm h]

/-- An embedded Python dict of order fields or of a JSON object. -/
abbrev Dict := AList PyVal

/-- Lookup with Python's `d.get(k)` default of None. -/
def dgetD (d : Dict) (k : String) : PyVal := (aget d k).getD PyVal.none

/-- The exception kinds the embedded client code can raise.
`paramValidation` embeds `OrderParameterValidationException`,
`apiError` embeds `KucoinAPIException` (carrying the raw response) and
`requestError` embeds `KucoinRequestException`.  Modelled from the
spec: the repository's `exceptions.py` is not among the source files;
per the spec's error-handling design these are distinct error kinds
(in particular the API error is not a ValueError, so it is not caught
by the response handler's `except ValueError`).  The remaining
constructors embed the Python runtime errors the translated code can
hit (KeyError, TypeError, ZeroDivisionError). -/
inductive Exc where
  | paramValidation (msg : String) : Exc
  | apiError (status : Nat) (text : String) (body : Option Dict) : Exc
  | requestError (msg : String) : Exc
  | keyError : Exc
  | typeError : Exc
  | zeroDivisionError : Exc

/-- Validator from `validations.py`: `side` must be one of
`("buy", "sell")`. -/
def validate_side (side : PyVal) : Except Exc Unit :=
  if side.isStr "buy" || side.isStr "sell" then .ok ()
  else .error (.paramValidation "Order 'side' need to be one of ('buy', 'sell')")

/-- Validator from `validations.py`: when `stop` is truthy it must be
one of `("down", "up")`, `stop_price_type` one of `("TP", "MP", "IP")`
and `stop_price` truthy, checked in that order. -/
def validate_stop (stop stop_price stop_price_type : PyVal) : Except Exc Unit :=
  if ¬ stop.truthy then .ok ()
  else if ¬ (stop.isStr "down" || stop.isStr "up") then
    .error (.paramValidation "Property 'stop' need to be one of ('down', 'up')")
  else if ¬ (stop_price_type.isStr "TP" || stop_price_type.isStr "MP" ||
      stop_price_type.isStr "IP") then
    .error (.paramValidation
      "Property 'stop_price_type' need to be one of ('TP', 'MP', 'IP')")
  else if ¬ stop_price.truthy then
    .error (.paramValidation "Property 'stop_price' need to be defined")
  else .ok ()

/-- Validator from `validations.py`: a truthy `stop` excludes a truthy
`stop_loss` or `take_profit`. -/
def validate_stop_loss_take_profit (stop stop_loss take_profit : PyVal) :
    Except Exc Unit :=
  if stop.truthy ∧ (stop_loss.truthy ∨ take_profit.truthy) then
    .error (.paramValidation
      "If property 'stop_loss' or 'take_profit' defined proerty 'stop' need to be empty")
  else .ok ()

/-- Validator from `validations.py`: a truthy `time_in_force` must be
one of `("GTC", "IOC")`. -/
def validate_time_in_force (time_in_force : PyVal) : Except Exc Unit :=
  if ¬ time_in_force.truthy then .ok ()
  else if ¬ (time_in_force.isStr "GTC" || time_in_force.isStr "IOC") then
    .error (.paramValidation "Property 'time_in_force' need to be one of: ('GTC', 'IOC')")
  else .ok ()

/-- Validator from `validations.py`, with its own parameter order
`(time_in_force, post_only)`: a truthy `post_only` demands
`time_in_force == "GTC"`. -/
def validate_post_only (time_in_force post_only : PyVal) : Except Exc Unit :=
  if post_only.truthy ∧ ¬ time_in_force.isStr "GTC" then
    .error (.paramValidation
      "If property 'post_only' defined, 'time_in_force' need to be GTC")
  else .ok ()

/-- Validator from `validations.py`: `hidden` and `iceberg` are
mutually exclusive. -/
def validate_hidden_and_iceberg (hidden iceberg : PyVal) : Except Exc Unit :=
  if hidden.truthy ∧ iceberg.truthy then
    .error (.paramValidation "Only one of 'hodden' and 'iceberg' can be defined")
  else .ok ()

/-- Validator from `validations.py`: a truthy `iceberg` demands a
truthy `visible_size`. -/
def validate_iceberg (iceberg visible_size : PyVal) : Except Exc Unit :=
  if iceberg.truthy ∧ ¬ visible_size.truthy then
    .error (.paramValidation
      "If property 'iceberg' is defined, proerty 'visible_size' need to be empty")
  else .ok ()

/-- Validator from `validations.py`: `amount` and `size` are mutually
exclusive. -/
def validate_amount_size (amount size : PyVal) : Except Exc Unit :=
  if amount.truthy ∧ size.truthy then
    .error (.paramValidation "Either 'amount' or 'size' need to be empty.")
  else .ok ()

/-- Python `int()` applied to a float embedded as a rational:
truncation toward zero. -/
def pyInt (q : ℚ) : Int := if 0 ≤ q then ⌊q⌋ else ⌈q⌉

/-- Side-inversion lookup table `SIDE_MAPPING` from `common/utils.py`. -/
def SIDE_MAPPING : AList String := [("buy", "sell"), ("sell", "buy")]

/-- Python `SIDE_MAPPING.get(v)`: the inverted side when `v` is the
string "buy" or "sell", None otherwise (`dict.get` of a missing key). -/
def sideMappingGet (v : PyVal) : PyVal :=
  match v with
  | .str s =>
    match aget SIDE_MAPPING s with
    | some t => .str t
    | Option.none => .none
  | _ => .none

/-- Python `SIDE_MAPPING[v]`: the inverted side, or a KeyError (none)
when `v` is not a present key. -/
def sideMappingIndex (v : PyVal) : Option String :=
  match v with
  | .str s => aget SIDE_MAPPING s
  | _ => Option.none

/-- An HTTP request issued by the client, as recorded in the trace:
method, path (relative to the API base) and the JSON payload. -/
structure Request where
  method : String
  path : String
  data : Dict

/-- The environment a run of the client draws on: the exchange's
(already unwrapped) response to each request, and the stream of uuids
behind `flat_uuid`, indexed by a draw counter. -/
structure Env where
  respond : String → String → Dict → Dict
  uuid : Nat → String

/-- Python `x is None` on an optional dict entry: the key is missing or
holds None, the condition under which `_create_order` generates a
`clientOid`. -/
def isNoneLike (v : Option PyVal) : Bool :=
  match v with
  | Option.none => true
  | some .none => true
  | some _ => false

/-- The amount-to-size conversion of `_create_order` (perp.py lines
157-168), given the `amount` argument and the `multiplier` fetched
from contract info: `int(amount * (1 / multiplier))` when
`amount >= 1 and multiplier < 1`, else `amount // multiplier` (whose
float value is the floor of the quotient).  Non-numeric operands raise
TypeError, a zero multiplier ZeroDivisionError, as in Python; the
source's dead `if size is None: raise` can never fire because both
branches assign `size`. -/
def amountToSize (amount multiplier : PyVal) : Except Exc PyVal :=
  match amount.toRat? with
  | Option.none => .error .typeError
  | some a =>
    if 1 ≤ a then
      match multiplier.toRat? with
      | Option.none => .error .typeError
      | some m =>
        if m < 1 then
          if m = 0 then .error .zeroDivisionError
          else .ok (.int (pyInt (a * (1 / m))))
        else
          if m = 0 then .error .zeroDivisionError
          else .ok (.rat ((⌊a / m⌋ : Int) : ℚ))
    else
      match multiplier.toRat? with
      | Option.none => .error .typeError
      | some m =>
        if m = 0 then .error .zeroDivisionError
        else .ok (.rat ((⌊a / m⌋ : Int) : ℚ))

/-- The conditional-order clone both the stop-loss and the take-profit
branches of `_create_order` build: `order.copy()` followed by the same
six key assignments (fresh clientOid, new side, stop direction, the
trigger price, stopPriceType "TP", reduceOnly True), differing only in
the values passed. -/
def conditional_clone (order2 : Dict) (uid : String) (newSide : PyVal)
    (stopDir : String) (price : PyVal) : Dict :=
  aset (aset (aset (aset (aset (aset order2
    "clientOid" (PyVal.str uid))
    "side" newSide)
    "stop" (PyVal.str stopDir))
    "stopPrice" price)
    "stopPriceType" (PyVal.str "TP"))
    "reduceOnly" (PyVal.bool true)

/-- The body of `Client._create_order` after its validations (perp.py
lines 154-192): default the clientOid, convert a truthy amount to a
size via a contract-info fetch, submit the primary order, then submit
the derived stop-loss and take-profit orders when their trigger prices
are truthy.  Returns the primary order's response, the chronological
request trace, and the uuid draw counter. -/
def create_order_core (env : Env) (n : Nat) (order : Dict)
    (amount stop_loss_price take_profit_price : PyVal) :
    Except Exc Dict × List Request × Nat :=
  let withOid :=
    if isNoneLike (aget order "clientOid") then
      (aset order "clientOid" (PyVal.str (env.uuid n)), n + 1)
    else (order, n)
  let order1 := withOid.1
  let n1 := withOid.2
  let sized : Except Exc Dict × List Request :=
    if amount.truthy then
      match aget order1 "symbol" with
      | Option.none => (.error .keyError, [])
      | some symv =>
        let info := env.respond "GET" ("contracts/" ++ pyStr symv) []
        (match amountToSize amount (dgetD info "multiplier") with
          | .error e => .error e
          | .ok sz => .ok (aset order1 "size" sz),
         [⟨"GET", "contracts/" ++ pyStr symv, []⟩])
    else (.ok order1, [])
  match sized.1 with
  | .error e => (.error e, sized.2, n1)
  | .ok order2 =>
    let newOrderResponse := env.respond "POST" "orders" order2
    let tr2 := sized.2 ++ [⟨"POST", "orders", order2⟩]
    let slStep : Except Exc Unit × List Request × Nat :=
      if stop_loss_price.truthy then
        match aget order2 "side" with
        | Option.none => (.error .keyError, tr2, n1)
        | some sv =>
          let sl := conditional_clone order2 (env.uuid n1) (sideMappingGet sv)
            (if sv.isStr "buy" then "down" else "up") stop_loss_price
          (.ok (), tr2 ++ [⟨"POST", "orders", sl⟩], n1 + 1)
      else (.ok (), tr2, n1)
    match slStep.1 with
    | .error e => (.error e, slStep.2)
    | .ok _ =>
      let tr3 := slStep.2.1
      let n2 := slStep.2.2
      let tpStep : Except Exc Unit × List Request × Nat :=
        if take_profit_price.truthy then
          match aget order2 "side" with
          | Option.none => (.error .keyError, tr3, n2)
          | some sv =>
            match sideMappingIndex sv with
            | Option.none => (.error .keyError, tr3, n2)
            | some invSide =>
              let tpo := conditional_clone order2 (env.uuid n2) (.str invSide)
                (if sv.isStr "buy" then "up" else "down") take_profit_price
              (.ok (), tr3 ++ [⟨"POST", "orders", tpo⟩], n2 + 1)
        else (.ok (), tr3, n2)
      match tpStep.1 with
      | .error e => (.error e, tpStep.2)
      | .ok _ => (.ok newOrderResponse, tpStep.2)

/-- Full `Client._create_order` (perp.py lines 135-192): the four
validator calls in source order, then `create_order_core`.  Accessing
`order["side"]` of a dict with no side key is a KeyError, as in
Python. -/
def create_order (env : Env) (n : Nat) (order : Dict)
    (amount stop_loss_price take_profit_price : PyVal) :
    Except Exc Dict × List Request × Nat :=
  match aget order "side" with
  | Option.none => (.error .keyError, [], n)
  | some sideV =>
    match validate_side sideV with
    | .error e => (.error e, [], n)
    | .ok _ =>
      match validate_stop (dgetD order "stop") (dgetD order "stopPrice")
          (dgetD order "stopPriceType") with
      | .error e => (.error e, [], n)
      | .ok _ =>
        match validate_stop_loss_take_profit (dgetD order "stop")
            stop_loss_price take_profit_price with
        | .error e => (.error e, [], n)
        | .ok _ =>
          match validate_amount_size amount (dgetD order "size") with
          | .error e => (.error e, [], n)
          | .ok _ => create_order_core env n order amount stop_loss_price take_profit_price

/-- The payload assembly of `Client.create_limit_order` (perp.py lines
227-257): the five required keys first, then each optional key only
when its argument is truthy (a truthy `iceberg` also copies
`visible_size`). -/
def limit_order_payload (side price symbol leverage : String)
    (size client_oid remark stop stop_price stop_price_type
     reduce_only close_order force_hold hidden iceberg visible_size : PyVal) :
    Dict :=
  let o0 : Dict :=
    [("symbol", .str (pyUpper symbol)), ("side", .str (pyLower side)),
     ("type", .str "limit"), ("price", .str price), ("size", size)]
  let o1 := if client_oid.truthy then aset o0 "clientOid" client_oid else o0
  let o2 := if leverage ≠ "" then aset o1 "leverage" (.str leverage) else o1
  let o3 := if remark.truthy then aset o2 "remark" remark else o2
  let o4 := if stop.truthy then aset o3 "stop" stop else o3
  let o5 := if stop_price.truthy then aset o4 "stopPrice" stop_price else o4
  let o6 :=
    if stop_price_type.truthy then aset o5 "stopPriceType" stop_price_type else o5
  let o7 := if reduce_only.truthy then aset o6 "reduceOnly" reduce_only else o6
  let o8 := if close_order.truthy then aset o7 "closeOrder" close_order else o7
  let o9 := if force_hold.truthy then aset o8 "forceHold" force_hold else o8
  let o10 := if hidden.truthy then aset o9 "hidden" hidden else o9
  if iceberg.truthy then
    aset (aset o10 "iceberg" iceberg) "visible_size" visible_size
  else o10

/-- `Client.create_limit_order` (perp.py lines 197-264): the four
limit-specific validator calls — note the source passes
`(post_only, time_in_force)` positionally to `validate_post_only`,
whose parameters are declared `(time_in_force, post_only)` — then the
payload build, then `_create_order`. -/
def create_limit_order (env : Env) (n : Nat)
    (side price symbol leverage : String)
    (amount size client_oid remark stop stop_price stop_price_type
     reduce_only close_order force_hold time_in_force post_only
     hidden iceberg visible_size stop_loss_price take_profit_price : PyVal) :
    Except Exc Dict × List Request × Nat :=
  match validate_time_in_force time_in_force with
  | .error e => (.error e, [], n)
  | .ok _ =>
    match validate_post_only post_only time_in_force with
    | .error e => (.error e, [], n)
    | .ok _ =>
      match validate_hidden_and_iceberg hidden iceberg with
      | .error e => (.error e, [], n)
      | .ok _ =>
        match validate_iceberg iceberg visible_size with
        | .error e => (.error e, [], n)
        | .ok _ =>
          create_order env n
            (limit_order_payload side price symbol leverage size client_oid remark
              stop stop_price stop_price_type reduce_only close_order force_hold
              hidden iceberg visible_size)
            amount stop_loss_price take_profit_price

/-- An HTTP response as `_handle_response` sees it: status code, raw
text, and the parsed JSON body — none when `response.json()` raises
ValueError.  Bodies are embedded as JSON objects, the envelope shape
the exchange answers with. -/
structure HttpResponse where
  status_code : Nat
  text : String
  body : Option Dict

/-- The status check of `_handle_response`:
`str(response.status_code).startswith('2')`, with startswith spelled
out over the decimal digit characters. -/
def status2xx (n : Nat) : Bool := "2".data.isPrefixOf (Nat.repr n).data

/-- `Client._handle_response` (perp.py lines 43-67): non-2xx status
raises the API error; an unparsable body raises the request error; a
parsed body with a `code` field other than "200000" or a falsy
`success` field raises the API error (these raises are not caught by
the `except ValueError`, which only catches the JSON parse failure);
otherwise the `data` entry is returned when present, else the whole
body. -/
def handle_response (r : HttpResponse) : Except Exc PyVal :=
  if ¬ status2xx r.status_code then
    .error (.apiError r.status_code r.text r.body)
  else
    match r.body with
    | Option.none => .error (.requestError ("Invalid Response: " ++ r.text))
    | some res =>
      match aget res "code" with
      | some c =>
        if ¬ c.isStr "200000" then .error (.apiError r.status_code r.text r.body)
        else
          match aget res "success" with
          | some sv =>
            if ¬ sv.truthy then .error (.apiError r.status_code r.text r.body)
            else
              match aget res "data" with
              | some d => .ok d
              | Option.none => .ok (.dict res)
          | Option.none =>
            match aget res "data" with
            | some d => .ok d
            | Option.none => .ok (.dict res)
      | Option.none =>
        match aget res "success" with
        | some sv =>
          if ¬ sv.truthy then .error (.apiError r.status_code r.text r.body)
          else
            match aget res "data" with
            | some d => .ok d
            | Option.none => .ok (.dict res)
        | Option.none =>
          match aget res "data" with
          | some d => .ok d
          | Option.none => .ok (.dict res)

/-- Matcher for the request/transport error kind, used to state which
error `_handle_response` raises. -/
def isRequestError (r : Except Exc PyVal) : Bool :=
  match r with
  | .error (.requestError _) => true
  | _ => false

/-- Matcher for the API error kind. -/
def isApiError (r : Except Exc PyVal) : Bool :=
  match r with
  | .error (.apiError _ _ _) => true
  | _ => false

/-- The per-client state of `Client`: the credentials stored by the
constructor and the headers object the class attribute
`DEFAULT_HEADERS` refers to. -/
structure ClientState where
  api_key : String
  api_secret : String
  api_passphrase : String
  default_headers : AList String
deriving DecidableEq

/-- The class attribute `DEFAULT_HEADERS` as the constructor leaves
it. -/
def DEFAULT_HEADERS : AList String :=
  [("accept", "application/json"), ("content-type", "application/json")]

/-- The header handling of `Client._request` (perp.py lines 102-132):
`headers = kwargs.get('headers', self.DEFAULT_HEADERS)` yields the
caller's dict when one is passed and otherwise the client's own
`DEFAULT_HEADERS` object, and the five `KC-API-*` entries are then
written into that very dict — so with no headers argument the write
lands in the client's `DEFAULT_HEADERS`.  The clock and the two
HMAC-SHA256 digests are abstracted as the `nonce`, `sign` and
`passphrase` parameters.  Returns the headers sent and the client
state after the call. -/
def request_headers (st : ClientState) (headersArg : Option (AList String))
    (nonce sign passphrase : String) : AList String × ClientState :=
  let h0 := headersArg.getD st.default_headers
  let h1 :=
    aset (aset (aset (aset (aset h0
      "KC-API-TIMESTAMP" nonce)
      "KC-API-SIGN" sign)
      "KC-API-KEY" st.api_key)
      "KC-API-PASSPHRASE" passphrase)
      "KC-API-KEY-VERSION" "2"
  match headersArg with
  | Option.none => (h1, { st with default_headers := h1 })
  | some _ => (h1, st)

/-!
Helper lemmas about the validators and the dictionary operations,
shared by the claim theorems below.
-/

theorem validate_side_ok {s : String} (h : s = "buy" ∨ s = "sell") :
    validate_side (PyVal.str s) = .ok () := by
  rcases h with h | h <;> subst h <;> rfl

theorem validate_stop_ok_of_falsy {a b c : PyVal} (h : a.truthy = false) :
    validate_stop a b c = .ok () := by
  simp [validate_stop, h]

theorem validate_stop_loss_take_profit_ok_of_falsy {a b c : PyVal}
    (h : a.truthy = false) :
    validate_stop_loss_take_profit a b c = .ok () := by
  simp [validate_stop_loss_take_profit, h]

theorem validate_amount_size_ok_of_falsy {a b : PyVal} (h : a.truthy = false) :
    validate_amount_size a b = .ok () := by
  simp [validate_amount_size, h]

/-- A fixed environment for the concrete evaluations below: the
exchange answers every request with a contract info carrying
multiplier 0.1, and the uuid stream is `uuid0, uuid1, ...`. -/
def envT : Env :=
  { respond := fun _ _ _ => [("multiplier", PyVal.rat (mkRat 1 10))],
    uuid := fun k => "uuid" ++ Nat.repr k }

/-!
Claim C1 — the post-only check at the limit-order operation.
-/

/-- Claim C1: the spec says a limit order with truthy `post_only` and
`time_in_force = "GTC"` passes the post-only check; the code instead
rejects it, because `create_limit_order` passes
`(post_only, time_in_force)` positionally to a validator whose
parameters are `(time_in_force, post_only)`.  This theorem evaluates
the code at the failing input: with `post_only=True,
time_in_force="GTC"` the call raises the parameter-validation error
(first conjunct), even though the validator applied to its own
parameter order accepts that combination (second conjunct); with
`time_in_force="IOC"` the call also raises (third conjunct), and with
`post_only=True, time_in_force=None` — also different from "GTC" — the
call is not rejected at all (fourth conjunct). -/
theorem claim_C1_post_only_gtc_rejected :
    (create_limit_order envT 0 "buy" "1" "xbt" "10"
        PyVal.none (PyVal.int 1) PyVal.none PyVal.none PyVal.none PyVal.none
        PyVal.none PyVal.none PyVal.none PyVal.none (PyVal.str "GTC")
        (PyVal.bool true) PyVal.none PyVal.none (PyVal.str "") PyVal.none
        PyVal.none).1
      = Except.error (Exc.paramValidation
          "If property 'post_only' defined, 'time_in_force' need to be GTC")
    ∧ validate_post_only (PyVal.str "GTC") (PyVal.bool true) = Except.ok ()
    ∧ (create_limit_order envT 0 "buy" "1" "xbt" "10"
        PyVal.none (PyVal.int 1) PyVal.none PyVal.none PyVal.none PyVal.none
        PyVal.none PyVal.none PyVal.none PyVal.none (PyVal.str "IOC")
        (PyVal.bool true) PyVal.none PyVal.none (PyVal.str "") PyVal.none
        PyVal.none).1
      = Except.error (Exc.paramValidation
          "If property 'post_only' defined, 'time_in_force' need to be GTC")
    ∧ (create_limit_order envT 0 "buy" "1" "xbt" "10"
        PyVal.none (PyVal.int 1) PyVal.none PyVal.none PyVal.none PyVal.none
        PyVal.none PyVal.none PyVal.none PyVal.none PyVal.none
        (PyVal.bool true) PyVal.none PyVal.none (PyVal.str "") PyVal.none
        PyVal.none).1
      = Except.ok [("multiplier", PyVal.rat (mkRat 1 10))] := by
  refine ⟨rfl, rfl, rfl, rfl⟩

/-!
Claim C2 — the amount-to-size conversion.
-/

/-- Claim C2, counterexample: the spec says that for `amount >= 1` and
`multiplier < 1` the size is `round(amount / multiplier)`.  At
`amount = 3, multiplier = 0.4` the quotient is 7.5, whose rounding is
8, but the code computes `int(amount * (1 / multiplier))`, which
truncates to 7. -/
theorem claim_C2_counterexample :
    amountToSize (PyVal.rat 3) (PyVal.rat (2/5)) = Except.ok (PyVal.int 7)
    ∧ (1:ℚ) ≤ 3 ∧ (2/5 : ℚ) < 1
    ∧ round ((3:ℚ) / (2/5)) = (8 : Int)
    ∧ (7 : Int) ≠ 8 := by
  refine ⟨?_, by norm_num, by norm_num, ?_, by norm_num⟩
  · have h1 : ((3:ℚ) * (1 / (2/5))) = 15/2 := by norm_num
    have h2 : pyInt ((3:ℚ) * (1 / (2/5))) = 7 := by
      rw [h1, pyInt, if_pos (by norm_num)]
      norm_num
    simp only [amountToSize, PyVal.toRat?]
    rw [if_pos (by norm_num), if_pos (by norm_num), if_neg (by norm_num), h2]
  · rw [round_eq]
    norm_num

/-- Claim C2, amended: for every positive multiplier the computed
contract size equals `floor(amount / multiplier)` in both branches —
the `amount >= 1, multiplier < 1` branch truncates
`amount * (1 / multiplier)` toward zero, which for a positive quotient
is the floor, not the rounding the spec states; the other branch is
Python floor division.  The spec's two worked examples hold: amount 2
with multiplier 0.1 gives size 20 (as an int), and amount 0.5 with
multiplier 2 gives size 0 (as a float). -/
theorem claim_C2_size_is_floor :
    (∀ a m : ℚ, 0 < m →
      amountToSize (PyVal.rat a) (PyVal.rat m)
        = Except.ok (if 1 ≤ a ∧ m < 1 then PyVal.int ⌊a / m⌋
            else PyVal.rat (⌊a / m⌋ : Int)))
    ∧ amountToSize (PyVal.rat 2) (PyVal.rat (1/10)) = Except.ok (PyVal.int 20)
    ∧ amountToSize (PyVal.rat (1/2)) (PyVal.rat 2) = Except.ok (PyVal.rat 0) := by
  have main : ∀ a m : ℚ, 0 < m →
      amountToSize (PyVal.rat a) (PyVal.rat m)
        = Except.ok (if 1 ≤ a ∧ m < 1 then PyVal.int ⌊a / m⌋
            else PyVal.rat (⌊a / m⌋ : Int)) := by
    intro a m hm
    have hm0 : m ≠ 0 := ne_of_gt hm
    simp only [amountToSize, PyVal.toRat?]
    by_cases h1 : 1 ≤ a
    · rw [if_pos h1]
      by_cases h2 : m < 1
      · have hq : a * (1 / m) = a / m := by ring
        have hnn : 0 ≤ a / m := div_nonneg (le_trans zero_le_one h1) (le_of_lt hm)
        rw [if_pos h2, if_neg hm0, hq, pyInt, if_pos hnn, if_pos ⟨h1, h2⟩]
      · rw [if_neg h2, if_neg hm0, if_neg (fun h => h2 h.2)]
    · rw [if_neg h1, if_neg hm0, if_neg (fun h => h1 h.1)]
  refine ⟨main, ?_, ?_⟩
  · have := main 2 (1/10) (by norm_num)
    rw [this, if_pos ⟨by norm_num, by norm_num⟩]
    norm_num
  · have := main (1/2) 2 (by norm_num)
    rw [this, if_neg (by norm_num)]
    norm_num

/-- Claim C2, witness: the amended statement instantiated at
amount 3, multiplier 2/5, with the positivity hypothesis discharged
concretely. -/
theorem claim_C2_witness :
    (0 : ℚ) < mkRat 2 5
    ∧ amountToSize (PyVal.rat 3) (PyVal.rat (mkRat 2 5))
        = Except.ok (if 1 ≤ (3:ℚ) ∧ (mkRat 2 5 : ℚ) < 1 then
              PyVal.int ⌊(3:ℚ) / (mkRat 2 5 : ℚ)⌋
            else PyVal.rat (⌊(3:ℚ) / (mkRat 2 5 : ℚ)⌋ : Int)) :=
  ⟨by decide, claim_C2_size_is_floor.1 3 (mkRat 2 5) (by decide)⟩

/-!
Claim C8 — client state across request invocations.
-/

/-- A client as the constructor builds it, its headers object being
the class's `DEFAULT_HEADERS`. -/
def initialClient : ClientState := ⟨"key", "secret", "phrase", DEFAULT_HEADERS⟩

/-- Claim C8: the spec says a request invocation leaves the client's
credentials and default header set exactly as they were.  The code
instead mutates the shared `DEFAULT_HEADERS` dict in place whenever no
headers argument is passed (`kwargs.get('headers', self.DEFAULT_HEADERS)`
returns that very object and the five `KC-API-*` entries are written
into it): after one call the client state differs from before — the
default header set has gained the `KC-API-TIMESTAMP` entry (and the
siblings), though the stored credentials are indeed unchanged. -/
theorem claim_C8_default_headers_mutated :
    (request_headers initialClient Option.none "1700000000000" "sig" "digest").2
      ≠ initialClient
    ∧ aget (request_headers initialClient Option.none "1700000000000" "sig"
        "digest").2.default_headers "KC-API-TIMESTAMP" = some "1700000000000"
    ∧ aget initialClient.default_headers "KC-API-TIMESTAMP" = Option.none
    ∧ (request_headers initialClient Option.none "1700000000000" "sig"
        "digest").2.api_key = initialClient.api_key
    ∧ (request_headers initialClient Option.none "1700000000000" "sig"
        "digest").2.api_secret = initialClient.api_secret
    ∧ (request_headers initialClient Option.none "1700000000000" "sig"
        "digest").2.api_passphrase = initialClient.api_passphrase := by
  refine ⟨by decide, rfl, rfl, rfl, rfl, rfl⟩

/-!
Claim C6 — the response handler.
-/

/-- For HTTP status codes (three decimal digits), the source's
`str(status).startswith('2')` is exactly membership in 200..299. -/
theorem status2xx_iff_between :
    ∀ n : Nat, n < 600 → 100 ≤ n →
      (status2xx n = true ↔ 200 ≤ n ∧ n < 300) := by
  have h : ∀ n : Nat, n < 600 → 100 ≤ n →
      ("2".data.isPrefixOf (Nat.repr n).data = true ↔ 200 ≤ n ∧ n < 300) := by
    set_option maxRecDepth 10000 in decide
  exact h

/-- Claim C6, counterexample: the claim's "raises a request/transport
error if and only if the body cannot be parsed as JSON" fails on a
non-2xx response with an unparsable body: the status check runs first,
so the handler raises the API error there, not the request error. -/
theorem claim_C6_counterexample :
    handle_response ⟨500, "boom", Option.none⟩
      = Except.error (Exc.apiError 500 "boom" Option.none)
    ∧ isRequestError (handle_response ⟨500, "boom", Option.none⟩) = false := by
  exact ⟨rfl, rfl⟩

/-- Claim C6, amended: for every response with a three-digit status,
the handler raises the request/transport error iff the status is 2xx
and the body is unparsable; it raises the API error iff the status is
non-2xx, or the parsed body carries a `code` field other than "200000"
or a falsy `success` field; otherwise it returns the `data` sub-field
when present and the whole parsed body when absent. -/
theorem claim_C6_handle_response :
    ∀ r : HttpResponse, 100 ≤ r.status_code → r.status_code < 600 →
      (isRequestError (handle_response r) = true
        ↔ (200 ≤ r.status_code ∧ r.status_code < 300) ∧ r.body = Option.none)
      ∧ (isApiError (handle_response r) = true
        ↔ ¬(200 ≤ r.status_code ∧ r.status_code < 300)
          ∨ ∃ res, r.body = some res
            ∧ ((∃ c, aget res "code" = some c ∧ c.isStr "200000" = false)
              ∨ (∃ sv, aget res "success" = some sv ∧ sv.truthy = false)))
      ∧ (∀ res, r.body = some res →
          (200 ≤ r.status_code ∧ r.status_code < 300) →
          (∀ c, aget res "code" = some c → c.isStr "200000" = true) →
          (∀ sv, aget res "success" = some sv → sv.truthy = true) →
          handle_response r = Except.ok ((aget res "data").getD (PyVal.dict res))) := by
  intro r h100 h600
  have hs := status2xx_iff_between r.status_code h600 h100
  by_cases h2 : status2xx r.status_code = true
  · have hin : 200 ≤ r.status_code ∧ r.status_code < 300 := hs.mp h2
    cases hb : r.body with
    | none =>
      refine ⟨?_, ?_, ?_⟩
      · simp [handle_response, h2, hb, isRequestError, hin]
      · simp [handle_response, h2, hb, isApiError, hin]
      · intro res hres
        simp at hres
    | some res =>
      have hunfold : handle_response r
          = match aget res "code" with
            | some c =>
              if ¬ c.isStr "200000" then
                .error (.apiError r.status_code r.text r.body)
              else
                match aget res "success" with
                | some sv =>
                  if ¬ sv.truthy then .error (.apiError r.status_code r.text r.body)
                  else
                    match aget res "data" with
                    | some d => .ok d
                    | Option.none => .ok (.dict res)
                | Option.none =>
                  match aget res "data" with
                  | some d => .ok d
                  | Option.none => .ok (.dict res)
            | Option.none =>
              match aget res "success" with
              | some sv =>
                if ¬ sv.truthy then .error (.apiError r.status_code r.text r.body)
                else
                  match aget res "data" with
                  | some d => .ok d
                  | Option.none => .ok (.dict res)
              | Option.none =>
                match aget res "data" with
                | some d => .ok d
                | Option.none => .ok (.dict res) := by
        simp [handle_response, h2, hb]
      refine ⟨?_, ?_, ?_⟩
      · rw [hunfold]
        cases hc : aget res "code" with
        | some c =>
          by_cases hcs : c.isStr "200000" = true
          · simp only [hcs]
            cases hsu : aget res "success" with
            | some sv =>
              by_cases hst : sv.truthy = true
              · simp only [hst]
                cases hd : aget res "data" <;> simp [isRequestError]
              · simp [hst, isRequestError]
            | none =>
              cases hd : aget res "data" <;> simp [isRequestError]
          · simp [hcs, isRequestError]
        | none =>
          cases hsu : aget res "success" with
          | some sv =>
            by_cases hst : sv.truthy = true
            · simp only [hst]
              cases hd : aget res "data" <;> simp [isRequestError]
            · simp [hst, isRequestError]
          | none =>
            cases hd : aget res "data" <;> simp [isRequestError]
      · rw [hunfold]
        cases hc : aget res "code" with
        | some c =>
          by_cases hcs : c.isStr "200000" = true
          · simp only [hcs]
            cases hsu : aget res "success" with
            | some sv =>
              by_cases hst : sv.truthy = true
              · cases hd : aget res "data" <;>
                  simp_all [isApiError, hb, hin]
              · simp_all [isApiError, hb, hin]
            | none =>
              cases hd : aget res "data" <;>
                simp_all [isApiError, hb, hin]
          · simp_all [isApiError, hb, hin]
        | none =>
          cases hsu : aget res "success" with
          | some sv =>
            by_cases hst : sv.truthy = true
            · cases hd : aget res "data" <;>
                simp_all [isApiError, hb, hin]
            · simp_all [isApiError, hb, hin]
          | none =>
            cases hd : aget res "data" <;>
              simp_all [isApiError, hb, hin]
      · intro res2 hres2 _ hcode hsucc
        cases Option.some.inj hres2
        rw [hunfold]
        cases hc : aget res "code" with
        | some c =>
          have := hcode c hc
          simp only [this]
          cases hsu : aget res "success" with
          | some sv =>
            have := hsucc sv hsu
            simp only [this]
            cases hd : aget res "data" <;> simp [hd]
          | none =>
            cases hd : aget res "data" <;> simp [hd]
        | none =>
          cases hsu : aget res "success" with
          | some sv =>
            have := hsucc sv hsu
            simp only [this]
            cases hd : aget res "data" <;> simp [hd]
          | none =>
            cases hd : aget res "data" <;> simp [hd]
  · have hnotin : ¬ (200 ≤ r.status_code ∧ r.status_code < 300) :=
      fun h => h2 (hs.mpr h)
    refine ⟨?_, ?_, ?_⟩
    · simp [handle_response, h2, isRequestError, hnotin]
    · simp [handle_response, h2, isApiError, hnotin]
    · intro res _ hin
      exact absurd hin hnotin

/-- Claim C6, witness: the amended statement applied to a 200 response
whose body carries code "200000" and a `data` entry — the handler
returns just that entry. -/
theorem claim_C6_witness :
    handle_response
        ⟨200, "ok", some [("code", PyVal.str "200000"), ("data", PyVal.str "payload")]⟩
      = Except.ok (PyVal.str "payload") := by
  have h := (claim_C6_handle_response
      ⟨200, "ok", some [("code", PyVal.str "200000"), ("data", PyVal.str "payload")]⟩
      (by decide) (by decide)).2.2
      [("code", PyVal.str "200000"), ("data", PyVal.str "payload")] rfl
      (by decide)
      (by intro c hc; simp [aget] at hc; subst hc; rfl)
      (by intro sv hsv; simp [aget] at hsv)
  simpa [aget] using h

/-!
Claim C10 — numeric zero arguments behave like absent ones.
-/

/-- Claim C10: a numeric zero at the public order interface is treated
as absent.  First conjunct: amount 0 (float or int) passes the
amount/size exclusivity check whatever `size` is.  Second conjunct: a
limit order with amount=0, stop_loss_price=0 and take_profit_price=0
issues exactly one request — the primary POST, so no contract-info GET
and no conditional orders — and its payload still carries the caller's
`size` unchanged (no amount-to-size conversion happened). -/
theorem claim_C10_zero_treated_as_absent :
    (∀ s : PyVal, validate_amount_size (PyVal.rat 0) s = Except.ok ()
      ∧ validate_amount_size (PyVal.int 0) s = Except.ok ())
    ∧ (∀ (env : Env) (n : Nat) (side price symbol leverage : String) (size : PyVal),
        (pyLower side = "buy" ∨ pyLower side = "sell") →
        ∃ d : Dict,
          (create_limit_order env n side price symbol leverage
              (PyVal.rat 0) size PyVal.none PyVal.none PyVal.none PyVal.none
              PyVal.none PyVal.none PyVal.none PyVal.none PyVal.none PyVal.none
              PyVal.none PyVal.none (PyVal.str "") (PyVal.rat 0) (PyVal.rat 0)).2.1
            = [⟨"POST", "orders", d⟩]
          ∧ aget d "size" = some size) := by
  constructor
  · intro s
    constructor <;> simp [validate_amount_size, PyVal.truthy]
  · intro env n side price symbol leverage size hside
    by_cases hl : leverage = ""
    · subst hl
      refine ⟨[("symbol", PyVal.str (pyUpper symbol)),
        ("side", PyVal.str (pyLower side)), ("type", PyVal.str "limit"),
        ("price", PyVal.str price), ("size", size),
        ("clientOid", PyVal.str (env.uuid n))], ?_, ?_⟩
      · rcases hside with h | h <;>
          simp [create_limit_order, limit_order_payload, create_order, create_order_core,
            validate_time_in_force, validate_post_only, validate_hidden_and_iceberg,
            validate_iceberg, validate_side, validate_stop,
            validate_stop_loss_take_profit, validate_amount_size,
            PyVal.truthy, PyVal.isStr, isNoneLike, aget, aset, dgetD, h]
      · simp [aget]
    · refine ⟨[("symbol", PyVal.str (pyUpper symbol)),
        ("side", PyVal.str (pyLower side)), ("type", PyVal.str "limit"),
        ("price", PyVal.str price), ("size", size),
        ("leverage", PyVal.str leverage),
        ("clientOid", PyVal.str (env.uuid n))], ?_, ?_⟩
      · rcases hside with h | h <;>
          simp [create_limit_order, limit_order_payload, create_order, create_order_core,
            validate_time_in_force, validate_post_only, validate_hidden_and_iceberg,
            validate_iceberg, validate_side, validate_stop,
            validate_stop_loss_take_profit, validate_amount_size,
            PyVal.truthy, PyVal.isStr, isNoneLike, aget, aset, dgetD, h, hl]
      · simp [aget]

/-- Claim C10, witness: amount 0 together with size 3, stop-loss price
0 and take-profit price 0 — one single POST, size forwarded
unchanged. -/
theorem claim_C10_witness :
    ∃ d : Dict,
      (create_limit_order envT 0 "buy" "9000" "xbtusdtm" "5"
          (PyVal.rat 0) (PyVal.int 3) PyVal.none PyVal.none PyVal.none PyVal.none
          PyVal.none PyVal.none PyVal.none PyVal.none PyVal.none PyVal.none
          PyVal.none PyVal.none (PyVal.str "") (PyVal.rat 0) (PyVal.rat 0)).2.1
        = [⟨"POST", "orders", d⟩]
      ∧ aget d "size" = some (PyVal.int 3) :=
  claim_C10_zero_treated_as_absent.2 envT 0 "buy" "9000" "xbtusdtm" "5"
    (PyVal.int 3) (Or.inl rfl)

/-!
Claim C7 — validation failures precede every network request.
-/

theorem amountToSize_not_param (a m : PyVal) (msg : String) :
    amountToSize a m ≠ Except.error (Exc.paramValidation msg) := by
  unfold amountToSize
  split
  · simp
  · split
    · split
      · simp
      · split <;> split <;> simp
    · split
      · simp
      · split <;> simp

/-- After its validations, `_create_order` can only fail with runtime
errors (KeyError, TypeError, ZeroDivisionError), never with a
parameter-validation error. -/
theorem create_order_core_not_param (env : Env) (n : Nat) (order : Dict)
    (amount slp tpp : PyVal) (msg : String) :
    (create_order_core env n order amount slp tpp).1
      ≠ Except.error (Exc.paramValidation msg) := by
  simp only [create_order_core]
  split
  · rename_i e heq
    split at heq
    · split at heq
      · simp at heq
        subst heq
        simp
      · split at heq
        · rename_i e2 hats
          simp at heq
          subst heq
          intro hc
          simp at hc
          rw [hc] at hats
          exact amountToSize_not_param _ _ msg hats
        · simp at heq
    · simp at heq
  · rename_i order2 heq
    split
    · rename_i e heq2
      split at heq2
      · split at heq2
        · simp at heq2
          subst heq2
          simp
        · simp at heq2
      · simp at heq2
    · split
      · rename_i e heq3
        split at heq3
        · split at heq3
          · simp at heq3
            subst heq3
            simp
          · split at heq3
            · simp at heq3
              subst heq3
              simp
            · simp at heq3
        · simp at heq3
      · simp

/-- When `_create_order` raises a parameter-validation error, its
request trace is empty: all validators run before any request. -/
theorem create_order_param_error_no_requests (env : Env) (n : Nat) (order : Dict)
    (amount slp tpp : PyVal) (msg : String)
    (h : (create_order env n order amount slp tpp).1
      = Except.error (Exc.paramValidation msg)) :
    (create_order env n order amount slp tpp).2.1 = [] := by
  cases hside : aget order "side" with
  | none => simp [create_order, hside]
  | some sv =>
    cases hv1 : validate_side sv with
    | error e => simp [create_order, hside, hv1]
    | ok u =>
      cases hv2 : validate_stop (dgetD order "stop") (dgetD order "stopPrice")
          (dgetD order "stopPriceType") with
      | error e => simp [create_order, hside, hv1, hv2]
      | ok u2 =>
        cases hv3 : validate_stop_loss_take_profit (dgetD order "stop") slp tpp with
        | error e => simp [create_order, hside, hv1, hv2, hv3]
        | ok u3 =>
          cases hv4 : validate_amount_size amount (dgetD order "size") with
          | error e => simp [create_order, hside, hv1, hv2, hv3, hv4]
          | ok u4 =>
            rw [create_order] at h
            simp only [hside, hv1, hv2, hv3, hv4] at h
            exact absurd h (create_order_core_not_param env n order amount slp tpp msg)

/-- Claim C7: whenever a limit-order call raises a parameter-validation
error, its request trace is empty — neither the contract-info fetch nor
any order submission was issued.  (The validators run synchronously
first, both the limit-specific ones and the ones shared with
`_create_order`, and nothing after them can raise that error kind.) -/
theorem claim_C7_validation_failure_no_requests :
    ∀ (env : Env) (n : Nat) (side price symbol leverage : String)
      (amount size client_oid remark stop stop_price stop_price_type reduce_only
       close_order force_hold time_in_force post_only hidden iceberg visible_size
       slp tpp : PyVal) (msg : String),
      (create_limit_order env n side price symbol leverage amount size client_oid
          remark stop stop_price stop_price_type reduce_only close_order force_hold
          time_in_force post_only hidden iceberg visible_size slp tpp).1
        = Except.error (Exc.paramValidation msg) →
      (create_limit_order env n side price symbol leverage amount size client_oid
          remark stop stop_price stop_price_type reduce_only close_order force_hold
          time_in_force post_only hidden iceberg visible_size slp tpp).2.1 = [] := by
  intro env n side price symbol leverage amount size client_oid remark stop
    stop_price stop_price_type reduce_only close_order force_hold time_in_force
    post_only hidden iceberg visible_size slp tpp msg h
  cases hv1 : validate_time_in_force time_in_force with
  | error e => simp [create_limit_order, hv1]
  | ok u1 =>
    cases hv2 : validate_post_only post_only time_in_force with
    | error e => simp [create_limit_order, hv1, hv2]
    | ok u2 =>
      cases hv3 : validate_hidden_and_iceberg hidden iceberg with
      | error e => simp [create_limit_order, hv1, hv2, hv3]
      | ok u3 =>
        cases hv4 : validate_iceberg iceberg visible_size with
        | error e => simp [create_limit_order, hv1, hv2, hv3, hv4]
        | ok u4 =>
          rw [create_limit_order] at h ⊢
          simp only [hv1, hv2, hv3, hv4] at h ⊢
          exact create_order_param_error_no_requests env n _ amount slp tpp msg h

/-- Claim C7, witness: a call with an invalid side raises the
parameter-validation error and issued no request at all. -/
theorem claim_C7_witness :
    (create_limit_order envT 0 "hold" "1" "xbt" "10"
        PyVal.none (PyVal.int 1) PyVal.none PyVal.none PyVal.none PyVal.none
        PyVal.none PyVal.none PyVal.none PyVal.none PyVal.none PyVal.none
        PyVal.none PyVal.none (PyVal.str "") PyVal.none PyVal.none).2.1 = [] :=
  claim_C7_validation_failure_no_requests envT 0 "hold" "1" "xbt" "10"
    PyVal.none (PyVal.int 1) PyVal.none PyVal.none PyVal.none PyVal.none
    PyVal.none PyVal.none PyVal.none PyVal.none PyVal.none PyVal.none
    PyVal.none PyVal.none (PyVal.str "") PyVal.none PyVal.none
    "Order 'side' need to be one of ('buy', 'sell')" rfl

/-!
Claims C3 and C4 — the derived stop-loss and take-profit orders.
-/

theorem conditional_clone_clientOid (o : Dict) (u : String) (ns : PyVal)
    (sd : String) (p : PyVal) :
    aget (conditional_clone o u ns sd p) "clientOid" = some (PyVal.str u) := by
  rw [conditional_clone, aget_aset_ne _ _ (by decide), aget_aset_ne _ _ (by decide),
    aget_aset_ne _ _ (by decide), aget_aset_ne _ _ (by decide),
    aget_aset_ne _ _ (by decide), aget_aset_self]

theorem conditional_clone_side (o : Dict) (u : String) (ns : PyVal)
    (sd : String) (p : PyVal) :
    aget (conditional_clone o u ns sd p) "side" = some ns := by
  rw [conditional_clone, aget_aset_ne _ _ (by decide), aget_aset_ne _ _ (by decide),
    aget_aset_ne _ _ (by decide), aget_aset_ne _ _ (by decide), aget_aset_self]

theorem conditional_clone_stop (o : Dict) (u : String) (ns : PyVal)
    (sd : String) (p : PyVal) :
    aget (conditional_clone o u ns sd p) "stop" = some (PyVal.str sd) := by
  rw [conditional_clone, aget_aset_ne _ _ (by decide), aget_aset_ne _ _ (by decide),
    aget_aset_ne _ _ (by decide), aget_aset_self]

theorem conditional_clone_stopPrice (o : Dict) (u : String) (ns : PyVal)
    (sd : String) (p : PyVal) :
    aget (conditional_clone o u ns sd p) "stopPrice" = some p := by
  rw [conditional_clone, aget_aset_ne _ _ (by decide), aget_aset_ne _ _ (by decide),
    aget_aset_self]

theorem conditional_clone_stopPriceType (o : Dict) (u : String) (ns : PyVal)
    (sd : String) (p : PyVal) :
    aget (conditional_clone o u ns sd p) "stopPriceType" = some (PyVal.str "TP") := by
  rw [conditional_clone, aget_aset_ne _ _ (by decide), aget_aset_self]

theorem conditional_clone_reduceOnly (o : Dict) (u : String) (ns : PyVal)
    (sd : String) (p : PyVal) :
    aget (conditional_clone o u ns sd p) "reduceOnly" = some (PyVal.bool true) := by
  rw [conditional_clone, aget_aset_self]

theorem conditional_clone_other (o : Dict) (u : String) (ns : PyVal)
    (sd : String) (p : PyVal) (key : String)
    (h : key ∉ (["clientOid", "side", "stop", "stopPrice", "stopPriceType",
      "reduceOnly"] : List String)) :
    aget (conditional_clone o u ns sd p) key = aget o key := by
  simp only [List.mem_cons, List.not_mem_nil, or_false, not_or] at h
  obtain ⟨h1, h2, h3, h4, h5, h6⟩ := h
  rw [conditional_clone, aget_aset_ne _ _ (Ne.symm h6), aget_aset_ne _ _ (Ne.symm h5),
    aget_aset_ne _ _ (Ne.symm h4), aget_aset_ne _ _ (Ne.symm h3),
    aget_aset_ne _ _ (Ne.symm h2), aget_aset_ne _ _ (Ne.symm h1)]

theorem truthy_none : PyVal.truthy PyVal.none = false := rfl

/-- Claim C3: for an order with a valid side, no stop configured and a
truthy stop-loss price (and no notional amount — sizes pass as `size`),
the run submits the primary order first and then a second order that
is a clone of the submitted primary except for: a freshly drawn
client-order-id, the side inverted buy↔sell, `stop` "down" when the
original side was buy and "up" otherwise, `stopPrice` equal to the
stop-loss price, `stopPriceType` "TP" and `reduceOnly` true.  Every
other key of the clone agrees with the submitted primary order. -/
theorem claim_C3_stop_loss_order (env : Env) (n : Nat) (order : Dict)
    (slp tpp : PyVal) (s : String)
    (hside : aget order "side" = some (PyVal.str s))
    (hs : s = "buy" ∨ s = "sell")
    (hstop : (dgetD order "stop").truthy = false)
    (hslp : slp.truthy = true) :
    ∃ p q : Dict,
      (create_order env n order PyVal.none slp tpp).2.1.get? 0
          = some ⟨"POST", "orders", p⟩
      ∧ (create_order env n order PyVal.none slp tpp).2.1.get? 1
          = some ⟨"POST", "orders", q⟩
      ∧ aget q "side" = some (PyVal.str (if s = "buy" then "sell" else "buy"))
      ∧ aget q "stop" = some (PyVal.str (if s = "buy" then "down" else "up"))
      ∧ aget q "stopPrice" = some slp
      ∧ aget q "stopPriceType" = some (PyVal.str "TP")
      ∧ aget q "reduceOnly" = some (PyVal.bool true)
      ∧ (∃ k, aget q "clientOid" = some (PyVal.str (env.uuid k)))
      ∧ ∀ key : String, key ∉ (["clientOid", "side", "stop", "stopPrice",
          "stopPriceType", "reduceOnly"] : List String) → aget q key = aget p key := by
  have hv3 : validate_stop_loss_take_profit (dgetD order "stop") slp tpp = .ok () :=
    validate_stop_loss_take_profit_ok_of_falsy hstop
  have hv2 : validate_stop (dgetD order "stop") (dgetD order "stopPrice")
      (dgetD order "stopPriceType") = .ok () := validate_stop_ok_of_falsy hstop
  have hside1 : ∀ v : PyVal, aget (aset order "clientOid" v) "side" = aget order "side" :=
    fun v => aget_aset_ne _ _ (by decide)
  rcases hs with rfl | rfl <;>
    by_cases hno : isNoneLike (aget order "clientOid") <;>
      by_cases ht : tpp.truthy <;>
        (simp [create_order, create_order_core, validate_side, validate_amount_size,
          hside, hside1, hv2, hv3, hno, hslp, ht, truthy_none, PyVal.isStr,
          sideMappingGet, sideMappingIndex, SIDE_MAPPING, aget,
          conditional_clone_clientOid, conditional_clone_side, conditional_clone_stop,
          conditional_clone_stopPrice, conditional_clone_stopPriceType,
          conditional_clone_reduceOnly]
         intro key h1 h2 h3 h4 h5 h6
         exact conditional_clone_other _ _ _ _ _ key (by simp [h1, h2, h3, h4, h5, h6]))

/-- Claim C3, witness: side "buy" with stop_loss_price 100 — the
derived order has side "sell", stop "down", stopPrice 100,
stopPriceType "TP" and reduceOnly true. -/
theorem claim_C3_witness :
    ∃ p q : Dict,
      (create_order envT 0 [("symbol", PyVal.str "XBT"), ("side", PyVal.str "buy"),
          ("type", PyVal.str "limit"), ("price", PyVal.str "1"),
          ("size", PyVal.int 5)] PyVal.none (PyVal.rat 100) PyVal.none).2.1.get? 0
          = some ⟨"POST", "orders", p⟩
      ∧ (create_order envT 0 [("symbol", PyVal.str "XBT"), ("side", PyVal.str "buy"),
          ("type", PyVal.str "limit"), ("price", PyVal.str "1"),
          ("size", PyVal.int 5)] PyVal.none (PyVal.rat 100) PyVal.none).2.1.get? 1
          = some ⟨"POST", "orders", q⟩
      ∧ aget q "side" = some (PyVal.str (if "buy" = "buy" then "sell" else "buy"))
      ∧ aget q "stop" = some (PyVal.str (if "buy" = "buy" then "down" else "up"))
      ∧ aget q "stopPrice" = some (PyVal.rat 100)
      ∧ aget q "stopPriceType" = some (PyVal.str "TP")
      ∧ aget q "reduceOnly" = some (PyVal.bool true)
      ∧ (∃ k, aget q "clientOid" = some (PyVal.str (envT.uuid k)))
      ∧ ∀ key : String, key ∉ (["clientOid", "side", "stop", "stopPrice",
          "stopPriceType", "reduceOnly"] : List String) → aget q key = aget p key :=
  claim_C3_stop_loss_order envT 0
    [("symbol", PyVal.str "XBT"), ("side", PyVal.str "buy"),
     ("type", PyVal.str "limit"), ("price", PyVal.str "1"), ("size", PyVal.int 5)]
    (PyVal.rat 100) PyVal.none "buy" rfl (Or.inl rfl) rfl (by decide)

/-- Claim C4: for an order with a valid side, no stop configured and a
truthy take-profit price (no stop-loss, no notional amount), the run
submits the primary order and then a clone of it built the same way as
the stop-loss order — fresh client-order-id, inverted side, stopPrice
equal to the take-profit price, stopPriceType "TP", reduceOnly true —
except that `stop` is "up" when the original side was buy and "down"
otherwise. -/
theorem claim_C4_take_profit_order (env : Env) (n : Nat) (order : Dict)
    (tpp : PyVal) (s : String)
    (hside : aget order "side" = some (PyVal.str s))
    (hs : s = "buy" ∨ s = "sell")
    (hstop : (dgetD order "stop").truthy = false)
    (htpp : tpp.truthy = true) :
    ∃ p q : Dict,
      (create_order env n order PyVal.none PyVal.none tpp).2.1.get? 0
          = some ⟨"POST", "orders", p⟩
      ∧ (create_order env n order PyVal.none PyVal.none tpp).2.1.get? 1
          = some ⟨"POST", "orders", q⟩
      ∧ aget q "side" = some (PyVal.str (if s = "buy" then "sell" else "buy"))
      ∧ aget q "stop" = some (PyVal.str (if s = "buy" then "up" else "down"))
      ∧ aget q "stopPrice" = some tpp
      ∧ aget q "stopPriceType" = some (PyVal.str "TP")
      ∧ aget q "reduceOnly" = some (PyVal.bool true)
      ∧ (∃ k, aget q "clientOid" = some (PyVal.str (env.uuid k)))
      ∧ ∀ key : String, key ∉ (["clientOid", "side", "stop", "stopPrice",
          "stopPriceType", "reduceOnly"] : List String) → aget q key = aget p key := by
  have hv3 : validate_stop_loss_take_profit (dgetD order "stop") PyVal.none tpp
      = .ok () := validate_stop_loss_take_profit_ok_of_falsy hstop
  have hv2 : validate_stop (dgetD order "stop") (dgetD order "stopPrice")
      (dgetD order "stopPriceType") = .ok () := validate_stop_ok_of_falsy hstop
  have hside1 : ∀ v : PyVal, aget (aset order "clientOid" v) "side" = aget order "side" :=
    fun v => aget_aset_ne _ _ (by decide)
  rcases hs with rfl | rfl <;>
    by_cases hno : isNoneLike (aget order "clientOid") <;>
      (simp [create_order, create_order_core, validate_side, validate_amount_size,
        hside, hside1, hv2, hv3, hno, htpp, truthy_none, PyVal.isStr,
        sideMappingGet, sideMappingIndex, SIDE_MAPPING, aget,
        conditional_clone_clientOid, conditional_clone_side, conditional_clone_stop,
        conditional_clone_stopPrice, conditional_clone_stopPriceType,
        conditional_clone_reduceOnly]
       intro key h1 h2 h3 h4 h5 h6
       exact conditional_clone_other _ _ _ _ _ key (by simp [h1, h2, h3, h4, h5, h6]))

/-- Claim C4, witness: side "sell" with take_profit_price 50 — the
derived order has side "buy" and stop "down". -/
theorem claim_C4_witness :
    ∃ p q : Dict,
      (create_order envT 0 [("symbol", PyVal.str "XBT"), ("side", PyVal.str "sell"),
          ("type", PyVal.str "limit"), ("price", PyVal.str "1"),
          ("size", PyVal.int 5)] PyVal.none PyVal.none (PyVal.rat 50)).2.1.get? 0
          = some ⟨"POST", "orders", p⟩
      ∧ (create_order envT 0 [("symbol", PyVal.str "XBT"), ("side", PyVal.str "sell"),
          ("type", PyVal.str "limit"), ("price", PyVal.str "1"),
          ("size", PyVal.int 5)] PyVal.none PyVal.none (PyVal.rat 50)).2.1.get? 1
          = some ⟨"POST", "orders", q⟩
      ∧ aget q "side" = some (PyVal.str (if "sell" = "buy" then "sell" else "buy"))
      ∧ aget q "stop" = some (PyVal.str (if "sell" = "buy" then "up" else "down"))
      ∧ aget q "stopPrice" = some (PyVal.rat 50)
      ∧ aget q "stopPriceType" = some (PyVal.str "TP")
      ∧ aget q "reduceOnly" = some (PyVal.bool true)
      ∧ (∃ k, aget q "clientOid" = some (PyVal.str (envT.uuid k)))
      ∧ ∀ key : String, key ∉ (["clientOid", "side", "stop", "stopPrice",
          "stopPriceType", "reduceOnly"] : List String) → aget q key = aget p key :=
  claim_C4_take_profit_order envT 0
    [("symbol", PyVal.str "XBT"), ("side", PyVal.str "sell"),
     ("type", PyVal.str "limit"), ("price", PyVal.str "1"), ("size", PyVal.int 5)]
    (PyVal.rat 50) "sell" rfl (Or.inr rfl) rfl (by decide)

/-!
Claim C5 — which keys the submitted limit-order payload carries.
-/

theorem aget_ite_aset (c : Prop) [Decidable c] (d : Dict) (k key : String)
    (v : PyVal) (h : k ≠ key) :
    aget (if c then aset d k v else d) key = aget d key := by
  split
  · exact aget_aset_ne _ _ h
  · rfl

theorem aget_ite_aset2 (c : Prop) [Decidable c] (d : Dict) (k1 k2 key : String)
    (v1 v2 : PyVal) (h1 : k1 ≠ key) (h2 : k2 ≠ key) :
    aget (if c then aset (aset d k1 v1) k2 v2 else d) key = aget d key := by
  split
  · rw [aget_aset_ne _ _ h2, aget_aset_ne _ _ h1]
  · rfl

theorem aget_ite_aset_flip (c : Prop) [Decidable c] (d : Dict) (k key : String)
    (v : PyVal) (h : k ≠ key) :
    aget (if c then d else aset d k v) key = aget d key := by
  split
  · rfl
  · exact aget_aset_ne _ _ h

/-- Claim C5, counterexample: a limit order with every optional field
omitted (side "buy", price "1", symbol "xbt", leverage "10") submits a
payload with seven keys, not the five the claim states: `leverage` (a
required, truthy argument) is included, `clientOid` is auto-generated
by `_create_order`, and `size` is present with value None. -/
theorem claim_C5_counterexample :
    (create_limit_order envT 0 "buy" "1" "xbt" "10"
        PyVal.none PyVal.none PyVal.none PyVal.none PyVal.none PyVal.none
        PyVal.none PyVal.none PyVal.none PyVal.none PyVal.none PyVal.none
        PyVal.none PyVal.none (PyVal.str "") PyVal.none PyVal.none).2.1
      = [⟨"POST", "orders",
          [("symbol", PyVal.str "XBT"), ("side", PyVal.str "buy"),
           ("type", PyVal.str "limit"), ("price", PyVal.str "1"),
           ("size", PyVal.none), ("leverage", PyVal.str "10"),
           ("clientOid", PyVal.str (envT.uuid 0))]⟩]
    ∧ keysOf [("symbol", PyVal.str "XBT"), ("side", PyVal.str "buy"),
        ("type", PyVal.str "limit"), ("price", PyVal.str "1"),
        ("size", PyVal.none), ("leverage", PyVal.str "10"),
        ("clientOid", PyVal.str (envT.uuid 0))]
      ≠ ["symbol", "side", "type", "price", "size"] := by
  exact ⟨rfl, by decide⟩

/-- Claim C5, amended: a limit order with all optional fields omitted
submits a payload whose keys are exactly symbol, side, type, price,
size, leverage and the auto-generated clientOid (leverage being a
required argument, omitted from the payload only when falsy); `size`
is always present, with value None when unsupplied.  More generally,
an optional field the caller did not supply — remark, stop, stopPrice,
stopPriceType, reduceOnly, closeOrder, forceHold, hidden, iceberg,
visible_size, clientOid, leverage — does not appear in the payload the
builder assembles, and no payload ever carries an `amount` key. -/
theorem claim_C5_payload_keys :
    (∀ (env : Env) (n : Nat) (side price symbol leverage : String),
      (pyLower side = "buy" ∨ pyLower side = "sell") →
      ∃ d : Dict,
        (create_limit_order env n side price symbol leverage
            PyVal.none PyVal.none PyVal.none PyVal.none PyVal.none PyVal.none
            PyVal.none PyVal.none PyVal.none PyVal.none PyVal.none PyVal.none
            PyVal.none PyVal.none (PyVal.str "") PyVal.none PyVal.none).2.1
          = [⟨"POST", "orders", d⟩]
        ∧ keysOf d = ["symbol", "side", "type", "price", "size"]
            ++ (if leverage = "" then [] else ["leverage"]) ++ ["clientOid"])
    ∧ (∀ (side price symbol leverage : String)
        (size client_oid remark stop stop_price stop_price_type reduce_only
         close_order force_hold hidden iceberg visible_size : PyVal),
        (remark.truthy = false →
          aget (limit_order_payload side price symbol leverage size client_oid
            remark stop stop_price stop_price_type reduce_only close_order
            force_hold hidden iceberg visible_size) "remark" = Option.none)
        ∧ (stop.truthy = false →
          aget (limit_order_payload side price symbol leverage size client_oid
            remark stop stop_price stop_price_type reduce_only close_order
            force_hold hidden iceberg visible_size) "stop" = Option.none)
        ∧ (stop_price.truthy = false →
          aget (limit_order_payload side price symbol leverage size client_oid
            remark stop stop_price stop_price_type reduce_only close_order
            force_hold hidden iceberg visible_size) "stopPrice" = Option.none)
        ∧ (stop_price_type.truthy = false →
          aget (limit_order_payload side price symbol leverage size client_oid
            remark stop stop_price stop_price_type reduce_only close_order
            force_hold hidden iceberg visible_size) "stopPriceType" = Option.none)
        ∧ (reduce_only.truthy = false →
          aget (limit_order_payload side price symbol leverage size client_oid
            remark stop stop_price stop_price_type reduce_only close_order
            force_hold hidden iceberg visible_size) "reduceOnly" = Option.none)
        ∧ (close_order.truthy = false →
          aget (limit_order_payload side price symbol leverage size client_oid
            remark stop stop_price stop_price_type reduce_only close_order
            force_hold hidden iceberg visible_size) "closeOrder" = Option.none)
        ∧ (force_hold.truthy = false →
          aget (limit_order_payload side price symbol leverage size client_oid
            remark stop stop_price stop_price_type reduce_only close_order
            force_hold hidden iceberg visible_size) "forceHold" = Option.none)
        ∧ (hidden.truthy = false →
          aget (limit_order_payload side price symbol leverage size client_oid
            remark stop stop_price stop_price_type reduce_only close_order
            force_hold hidden iceberg visible_size) "hidden" = Option.none)
        ∧ (iceberg.truthy = false →
          aget (limit_order_payload side price symbol leverage size client_oid
            remark stop stop_price stop_price_type reduce_only close_order
            force_hold hidden iceberg visible_size) "iceberg" = Option.none
          ∧ aget (limit_order_payload side price symbol leverage size client_oid
            remark stop stop_price stop_price_type reduce_only close_order
            force_hold hidden iceberg visible_size) "visible_size" = Option.none)
        ∧ (client_oid.truthy = false →
          aget (limit_order_payload side price symbol leverage size client_oid
            remark stop stop_price stop_price_type reduce_only close_order
            force_hold hidden iceberg visible_size) "clientOid" = Option.none)
        ∧ (leverage = "" →
          aget (limit_order_payload side price symbol leverage size client_oid
            remark stop stop_price stop_price_type reduce_only close_order
            force_hold hidden iceberg visible_size) "leverage" = Option.none)
        ∧ aget (limit_order_payload side price symbol leverage size client_oid
            remark stop stop_price stop_price_type reduce_only close_order
            force_hold hidden iceberg visible_size) "amount" = Option.none) := by
  constructor
  · intro env n side price symbol leverage hside
    by_cases hl : leverage = ""
    · subst hl
      refine ⟨[("symbol", PyVal.str (pyUpper symbol)),
        ("side", PyVal.str (pyLower side)), ("type", PyVal.str "limit"),
        ("price", PyVal.str price), ("size", PyVal.none),
        ("clientOid", PyVal.str (env.uuid n))], ?_, ?_⟩
      · rcases hside with h | h <;>
          simp [create_limit_order, limit_order_payload, create_order,
            create_order_core, validate_time_in_force, validate_post_only,
            validate_hidden_and_iceberg, validate_iceberg, validate_side,
            validate_stop, validate_stop_loss_take_profit, validate_amount_size,
            PyVal.truthy, PyVal.isStr, isNoneLike, aget, aset, dgetD, h]
      · simp [keysOf]
    · refine ⟨[("symbol", PyVal.str (pyUpper symbol)),
        ("side", PyVal.str (pyLower side)), ("type", PyVal.str "limit"),
        ("price", PyVal.str price), ("size", PyVal.none),
        ("leverage", PyVal.str leverage),
        ("clientOid", PyVal.str (env.uuid n))], ?_, ?_⟩
      · rcases hside with h | h <;>
          simp [create_limit_order, limit_order_payload, create_order,
            create_order_core, validate_time_in_force, validate_post_only,
            validate_hidden_and_iceberg, validate_iceberg, validate_side,
            validate_stop, validate_stop_loss_take_profit, validate_amount_size,
            PyVal.truthy, PyVal.isStr, isNoneLike, aget, aset, dgetD, h, hl]
      · simp [keysOf, hl]
  · intro side price symbol leverage size client_oid remark stop stop_price
      stop_price_type reduce_only close_order force_hold hidden iceberg visible_size
    refine ⟨?_, ?_, ?_, ?_, ?_, ?_, ?_, ?_, ?_, ?_, ?_, ?_⟩ <;>
      first
      | (intro h
         simp [limit_order_payload, h, aget_ite_aset, aget_ite_aset_flip,
           aget_ite_aset2, aget])
      | simp [limit_order_payload, aget_ite_aset, aget_ite_aset_flip,
          aget_ite_aset2, aget]

/-- Claim C5, witness: the all-optionals-omitted conjunct applied at a
concrete call. -/
theorem claim_C5_witness :
    ∃ d : Dict,
      (create_limit_order envT 0 "buy" "1" "xbt" "10"
          PyVal.none PyVal.none PyVal.none PyVal.none PyVal.none PyVal.none
          PyVal.none PyVal.none PyVal.none PyVal.none PyVal.none PyVal.none
          PyVal.none PyVal.none (PyVal.str "") PyVal.none PyVal.none).2.1
        = [⟨"POST", "orders", d⟩]
      ∧ keysOf d = ["symbol", "side", "type", "price", "size"]
          ++ (if ("10" : String) = "" then [] else ["leverage"]) ++ ["clientOid"] :=
  claim_C5_payload_keys.1 envT 0 "buy" "1" "xbt" "10" (Or.inl rfl)

/-!
Claim C9 — amount/size exclusivity and the amount-to-size pipeline.
-/

/-- Claim C9: supplying both a truthy amount and a truthy size raises
the parameter-validation error (first conjunct); and an order given an
amount (with no size) fetches the contract info, computes the size
from the returned multiplier, and submits a payload that carries the
computed size and no amount field (second conjunct). -/
theorem claim_C9_amount_size_exclusive :
    (∀ a s : PyVal, a.truthy = true → s.truthy = true →
      validate_amount_size a s
        = Except.error (Exc.paramValidation "Either 'amount' or 'size' need to be empty."))
    ∧ (∀ (env : Env) (n : Nat) (side price symbol leverage : String)
        (amount mv sz : PyVal),
        (pyLower side = "buy" ∨ pyLower side = "sell") →
        amount.truthy = true →
        aget (env.respond "GET" ("contracts/" ++ pyUpper symbol) []) "multiplier"
          = some mv →
        amountToSize amount mv = Except.ok sz →
        ∃ d : Dict,
          (create_limit_order env n side price symbol leverage
              amount PyVal.none PyVal.none PyVal.none PyVal.none PyVal.none
              PyVal.none PyVal.none PyVal.none PyVal.none PyVal.none PyVal.none
              PyVal.none PyVal.none (PyVal.str "") PyVal.none PyVal.none).2.1
            = [⟨"GET", "contracts/" ++ pyUpper symbol, []⟩, ⟨"POST", "orders", d⟩]
          ∧ aget d "size" = some sz
          ∧ aget d "amount" = Option.none) := by
  constructor
  · intro a s ha hs
    simp [validate_amount_size, ha, hs]
  · intro env n side price symbol leverage amount mv sz hside ham hresp hsz
    by_cases hl : leverage = ""
    · subst hl
      refine ⟨[("symbol", PyVal.str (pyUpper symbol)),
        ("side", PyVal.str (pyLower side)), ("type", PyVal.str "limit"),
        ("price", PyVal.str price), ("size", sz),
        ("clientOid", PyVal.str (env.uuid n))], ?_, ?_, ?_⟩
      · rcases hside with h | h <;>
          simp [create_limit_order, limit_order_payload, create_order,
            create_order_core, validate_time_in_force, validate_post_only,
            validate_hidden_and_iceberg, validate_iceberg, validate_side,
            validate_stop, validate_stop_loss_take_profit, validate_amount_size,
            truthy_none, PyVal.isStr, isNoneLike, aget, aset, dgetD, pyStr,
            h, ham, hresp, hsz]
      · simp [aget]
      · simp [aget]
    · refine ⟨[("symbol", PyVal.str (pyUpper symbol)),
        ("side", PyVal.str (pyLower side)), ("type", PyVal.str "limit"),
        ("price", PyVal.str price), ("size", sz),
        ("leverage", PyVal.str leverage),
        ("clientOid", PyVal.str (env.uuid n))], ?_, ?_, ?_⟩
      · rcases hside with h | h <;>
          simp [create_limit_order, limit_order_payload, create_order,
            create_order_core, validate_time_in_force, validate_post_only,
            validate_hidden_and_iceberg, validate_iceberg, validate_side,
            validate_stop, validate_stop_loss_take_profit, validate_amount_size,
            truthy_none, PyVal.isStr, isNoneLike, aget, aset, dgetD, pyStr,
            h, hl, ham, hresp, hsz]
      · simp [aget]
      · simp [aget]

/-- Claim C9, witness: both conjuncts at concrete inputs — amount 2
with size 3 is rejected, and amount 2 against multiplier 0.1 submits a
payload with the computed size and no amount key. -/
theorem claim_C9_witness :
    validate_amount_size (PyVal.rat 2) (PyVal.int 3)
      = Except.error (Exc.paramValidation "Either 'amount' or 'size' need to be empty.")
    ∧ ∃ d : Dict,
      (create_limit_order envT 0 "buy" "1" "xbt" "10"
          (PyVal.rat 2) PyVal.none PyVal.none PyVal.none PyVal.none PyVal.none
          PyVal.none PyVal.none PyVal.none PyVal.none PyVal.none PyVal.none
          PyVal.none PyVal.none (PyVal.str "") PyVal.none PyVal.none).2.1
        = [⟨"GET", "contracts/" ++ pyUpper "xbt", []⟩, ⟨"POST", "orders", d⟩]
      ∧ aget d "size" = some (PyVal.int (pyInt ((2 : ℚ) * (1 / (mkRat 1 10 : ℚ)))))
      ∧ aget d "amount" = Option.none :=
  ⟨claim_C9_amount_size_exclusive.1 (PyVal.rat 2) (PyVal.int 3) (by decide) (by decide),
   claim_C9_amount_size_exclusive.2 envT 0 "buy" "1" "xbt" "10"
     (PyVal.rat 2) (PyVal.rat (mkRat 1 10))
     (PyVal.int (pyInt ((2 : ℚ) * (1 / (mkRat 1 10 : ℚ)))))
     (Or.inl rfl) (by decide) rfl rfl⟩

end Pccxl
